/-
Verification of the LLGL Metal graphics-PSO translator
(sources/Renderer/Metal/RenderState/MTGraphicsPSO.mm).

The translator (`MTGraphicsPSO` constructor with its two private helpers
`CreateRenderPipelineState` and `CreateDepthStencilState`) and the bind-time
replayer (`MTGraphicsPSO::Bind`) are embedded shallowly below.  C++
exceptions become an `Except` result; the native Metal factory calls made by
the translator are recorded in an explicit call trace; the two
compile-time platform branches (`LLGL_OS_IOS`) become a `TargetOS`
parameter.

Declarations that MTGraphicsPSO.mm merely includes (LLGL descriptor structs
from PipelineStateFlags.h, the MTShader and MTRenderPass accessors, and the
MTTypes enum conversions) are not under src; their shapes are modelled from
the specification (sections 3 and 6), faithful to how MTGraphicsPSO.mm uses
them, and each such definition says so in its doc comment.
-/
import Mathlib

set_option linter.unusedVariables false

/-! ## LLGL enumeration types (PipelineStateFlags.h, modelled from the spec) -/

/-- Modelled from the spec: LLGL stencil operation (PipelineStateFlags.h is
not under src).  Only `keep` is ever needed concretely by the translator. -/
inductive StencilOp where
  | keep
  | zero
  | replace
  | incClamp
  | decClamp
  | invert
  | incWrap
  | decWrap
deriving DecidableEq, Repr

/-- Modelled from the spec: LLGL comparison function (PipelineStateFlags.h is
not under src).  Only `alwaysPass` is ever needed concretely. -/
inductive CompareOp where
  | neverPass
  | less
  | equal
  | lessEqual
  | greater
  | notEqual
  | greaterEqual
  | alwaysPass
deriving DecidableEq, Repr

/-- Modelled from the spec: LLGL blend factor enumeration.  The translator
only passes these values through `MTTypes::ToMTLBlendFactor`; the two
blend-constant values additionally feed `IsStaticBlendFactorEnabled`. -/
inductive BlendOp where
  | zero
  | one
  | srcColor
  | invSrcColor
  | srcAlpha
  | invSrcAlpha
  | dstColor
  | invDstColor
  | dstAlpha
  | invDstAlpha
  | srcAlphaSaturate
  | blendFactor
  | invBlendFactor
  | src1Color
  | invSrc1Color
  | src1Alpha
  | invSrc1Alpha
deriving DecidableEq, Repr

/-- Modelled from the spec: LLGL blend arithmetic (add, subtract, ...);
passed through unchanged by the translator. -/
inductive BlendArithmetic where
  | add
  | subtract
  | revSubtract
  | minOp
  | maxOp
deriving DecidableEq, Repr

/-- Modelled from the spec: opaque code of an LLGL primitive topology; the
translator only passes it to the MTTypes conversions. -/
structure PrimitiveTopology where
  code : Nat
deriving DecidableEq, Repr

/-- Modelled from the spec: opaque code of an LLGL cull mode. -/
structure CullMode where
  code : Nat
deriving DecidableEq, Repr

/-- Modelled from the spec: opaque code of an LLGL polygon fill mode. -/
structure PolygonMode where
  code : Nat
deriving DecidableEq, Repr

/-- Modelled from the spec: opaque code of the tessellation index format. -/
structure TessIndexFormat where
  code : Nat
deriving DecidableEq, Repr

/-- Modelled from the spec: opaque code of the tessellation partition mode. -/
structure TessPartition where
  code : Nat
deriving DecidableEq, Repr

/-- Stand-in for C float values that the translator copies around without
ever computing on them (depth bias triple, blend constant). -/
abbrev MTFloat := Int

/-! ## Metal-side enumeration types -/

/-- MTLStencilOperation (Metal SDK). -/
inductive MTLStencilOperation where
  | keep
  | zero
  | replace
  | incrementClamp
  | decrementClamp
  | invert
  | incrementWrap
  | decrementWrap
deriving DecidableEq, Repr

/-- MTLCompareFunction (Metal SDK). -/
inductive MTLCompareFunction where
  | never
  | less
  | equal
  | lessEqual
  | greater
  | notEqual
  | greaterEqual
  | always
deriving DecidableEq, Repr

/-- MTLWinding (Metal SDK). -/
inductive MTLWinding where
  | clockwise
  | counterClockwise
deriving DecidableEq, Repr

/-- MTLDepthClipMode (Metal SDK). -/
inductive MTLDepthClipMode where
  | clip
  | clamp
deriving DecidableEq, Repr

/-- MTLPatchType (Metal SDK). -/
inductive MTLPatchType where
  | none
  | triangle
  | quad
deriving DecidableEq, Repr

/-- MTLTessellationFactorFormat (Metal SDK); the translator only ever uses
the half-precision format. -/
inductive MTLTessellationFactorFormat where
  | half
deriving DecidableEq, Repr

/-- MTLTessellationFactorStepFunction (Metal SDK). -/
inductive MTLTessellationFactorStepFunction where
  | constantStep
  | perPatch
  | perInstance
  | perPatchAndPerInstance
deriving DecidableEq, Repr

/-- Modelled from the spec: Metal cull mode as the image of the injective
conversion MTTypes::ToMTLCullMode (MTTypes.mm is not under src); represented
by the LLGL value it was converted from, which is all the translator
observes. -/
structure MTLCullMode where
  ofCullMode : CullMode
deriving DecidableEq, Repr

/-- Modelled from the spec: Metal triangle fill mode as the image of
MTTypes::ToMTLTriangleFillMode. -/
structure MTLTriangleFillMode where
  ofPolygonMode : PolygonMode
deriving DecidableEq, Repr

/-- Modelled from the spec: Metal primitive type as the image of
MTTypes::ToMTLPrimitiveType. -/
structure MTLPrimitiveType where
  ofTopology : PrimitiveTopology
deriving DecidableEq, Repr

/-- Modelled from the spec: Metal primitive topology class as the image of
MTTypes::ToMTLPrimitiveTopologyClass. -/
structure MTLPrimitiveTopologyClass where
  ofTopology : PrimitiveTopology
deriving DecidableEq, Repr

/-- Modelled from the spec: Metal blend factor as the image of
MTTypes::ToMTLBlendFactor. -/
structure MTLBlendFactor where
  ofBlendOp : BlendOp
deriving DecidableEq, Repr

/-- Modelled from the spec: Metal blend operation as the image of
MTTypes::ToMTLBlendOperation. -/
structure MTLBlendOperation where
  ofArithmetic : BlendArithmetic
deriving DecidableEq, Repr

/-- Modelled from the spec: Metal patch index type as the image of
MTTypes::ToMTLPatchIndexType. -/
structure MTLPatchIndexType where
  ofIndexFormat : TessIndexFormat
deriving DecidableEq, Repr

/-- Modelled from the spec: Metal tessellation partition mode as the image
of MTTypes::ToMTLPartitionMode. -/
structure MTLPartitionMode where
  ofPartition : TessPartition
deriving DecidableEq, Repr

/-- Metal pixel format, kept opaque (the translator only copies formats from
the render pass into the pipeline descriptor). -/
abbrev MTLPixelFormat := Nat

/-- MTLColorWriteMask is a bit mask; Metal SDK values:
alpha = 1, blue = 2, green = 4, red = 8. -/
abbrev MTLColorWriteMask := Nat

def MTLColorWriteMaskNone : MTLColorWriteMask := 0

def MTLColorWriteMaskAlpha : MTLColorWriteMask := 1

def MTLColorWriteMaskBlue : MTLColorWriteMask := 2

def MTLColorWriteMaskGreen : MTLColorWriteMask := 4

def MTLColorWriteMaskRed : MTLColorWriteMask := 8

/-! ## MTTypes conversions (MTTypes.mm is not under src) -/

/-- Modelled from the spec: MTTypes::ToMTLStencilOperation, the evident
one-to-one backend-neutral mapping of stencil operations onto Metal. -/
def toMTLStencilOperation : StencilOp → MTLStencilOperation
  | .keep => .keep
  | .zero => .zero
  | .replace => .replace
  | .incClamp => .incrementClamp
  | .decClamp => .decrementClamp
  | .invert => .invert
  | .incWrap => .incrementWrap
  | .decWrap => .decrementWrap

/-- Modelled from the spec: MTTypes::ToMTLCompareFunction, the evident
one-to-one mapping of comparison functions onto Metal. -/
def toMTLCompareFunction : CompareOp → MTLCompareFunction
  | .neverPass => .never
  | .less => .less
  | .equal => .equal
  | .lessEqual => .lessEqual
  | .greater => .greater
  | .notEqual => .notEqual
  | .greaterEqual => .greaterEqual
  | .alwaysPass => .always

/-- Modelled from the spec: MTTypes::ToMTLBlendFactor (injective renaming). -/
def toMTLBlendFactor (op : BlendOp) : MTLBlendFactor := ⟨op⟩

/-- Modelled from the spec: MTTypes::ToMTLBlendOperation (injective
renaming). -/
def toMTLBlendOperation (op : BlendArithmetic) : MTLBlendOperation := ⟨op⟩

/-- Modelled from the spec: MTTypes::ToMTLCullMode (injective renaming). -/
def toMTLCullMode (m : CullMode) : MTLCullMode := ⟨m⟩

/-- Modelled from the spec: MTTypes::ToMTLTriangleFillMode (injective
renaming). -/
def toMTLTriangleFillMode (m : PolygonMode) : MTLTriangleFillMode := ⟨m⟩

/-- Modelled from the spec: MTTypes::ToMTLPrimitiveType (injective
renaming). -/
def toMTLPrimitiveType (t : PrimitiveTopology) : MTLPrimitiveType := ⟨t⟩

/-- Modelled from the spec: MTTypes::ToMTLPrimitiveTopologyClass (injective
renaming). -/
def toMTLPrimitiveTopologyClass (t : PrimitiveTopology) : MTLPrimitiveTopologyClass := ⟨t⟩

/-- Modelled from the spec: MTTypes::ToMTLPatchIndexType (injective
renaming). -/
def toMTLPatchIndexType (f : TessIndexFormat) : MTLPatchIndexType := ⟨f⟩

/-- Modelled from the spec: MTTypes::ToMTLPartitionMode (injective
renaming). -/
def toMTLPartitionMode (p : TessPartition) : MTLPartitionMode := ⟨p⟩

/-! ## LLGL pipeline descriptor (spec section 3, PipelineStateFlags.h) -/

/-- Modelled from the spec: one stencil face of the LLGL descriptor
(fail op, depth-fail op, pass op, compare, read mask, write mask,
reference). -/
structure StencilFaceDescriptor where
  stencilFailOp : StencilOp := .keep
  depthFailOp : StencilOp := .keep
  depthPassOp : StencilOp := .keep
  compareOp : CompareOp := .less
  readMask : Nat := 0
  writeMask : Nat := 0
  reference : Nat := 0
deriving DecidableEq, Repr

/-- Modelled from the spec: the LLGL stencil descriptor. -/
structure StencilDescriptor where
  testEnabled : Bool := false
  referenceDynamic : Bool := false
  front : StencilFaceDescriptor := {}
  back : StencilFaceDescriptor := {}
deriving DecidableEq, Repr

/-- Modelled from the spec: the LLGL depth descriptor. -/
structure DepthDescriptor where
  testEnabled : Bool := false
  writeEnabled : Bool := false
  compareOp : CompareOp := .less
deriving DecidableEq, Repr

/-- Modelled from the spec: four boolean colour channels (LLGL ColorRGBAb),
the per-target colour write mask. -/
structure ColorRGBAb where
  r : Bool := true
  g : Bool := true
  b : Bool := true
  a : Bool := true
deriving DecidableEq, Repr

/-- Modelled from the spec: four float colour channels (LLGL ColorRGBAf),
the static blend constant. -/
structure ColorRGBAf where
  r : MTFloat := 0
  g : MTFloat := 0
  b : MTFloat := 0
  a : MTFloat := 0
deriving DecidableEq, Repr

/-- Modelled from the spec: one LLGL blend target (blend enable, colour
write mask, six blend factors and operations). -/
structure BlendTargetDescriptor where
  blendEnabled : Bool := false
  srcColor : BlendOp := .srcAlpha
  dstColor : BlendOp := .invSrcAlpha
  colorArithmetic : BlendArithmetic := .add
  srcAlpha : BlendOp := .srcAlpha
  dstAlpha : BlendOp := .invSrcAlpha
  alphaArithmetic : BlendArithmetic := .add
  colorMask : ColorRGBAb := {}
deriving DecidableEq, Repr

/-- Modelled from the spec: the LLGL blend descriptor; `targets` is the
fixed C array of eight blend targets. -/
structure BlendDescriptor where
  alphaToCoverageEnabled : Bool := false
  independentBlendEnabled : Bool := false
  blendFactorDynamic : Bool := false
  blendFactor : ColorRGBAf := {}
  targets : Fin 8 → BlendTargetDescriptor := fun _ => {}
deriving Repr

/-- Modelled from the spec: the LLGL depth-bias triple. -/
structure DepthBiasDescriptor where
  constantFactor : MTFloat := 0
  slopeFactor : MTFloat := 0
  clamp : MTFloat := 0
deriving DecidableEq, Repr

/-- Modelled from the spec: the LLGL rasterizer descriptor (the fields read
by MTGraphicsPSO.mm). -/
structure RasterizerDescriptor where
  cullMode : CullMode := ⟨0⟩
  frontCCW : Bool := false
  polygonMode : PolygonMode := ⟨0⟩
  depthClampEnabled : Bool := false
  discardEnabled : Bool := false
  multiSampleEnabled : Bool := false
  depthBias : DepthBiasDescriptor := {}
deriving DecidableEq, Repr

/-- Modelled from the spec: the LLGL tessellation descriptor. -/
structure TessellationDescriptor where
  maxTessFactor : Nat := 64
  indexFormat : TessIndexFormat := ⟨0⟩
  outputWindingCCW : Bool := false
  partition : TessPartition := ⟨0⟩
deriving DecidableEq, Repr

/-! ## External collaborators (spec section 6) -/

/-- Metal shader function handle; the translator reads its patch type. -/
structure MTLFunction where
  uid : Nat := 0
  patchType : MTLPatchType := .none
deriving DecidableEq, Repr

/-- Opaque Metal vertex descriptor handle. -/
structure MTLVertexDescriptor where
  uid : Nat := 0
deriving DecidableEq, Repr

/-- Modelled from the spec: the compiled Metal shader module (MTShader is
not under src).  The shader-module provider exposes the native entry point
(GetNative, possibly nil), the patch-control-point count
(GetNumPatchControlPoints) and the vertex input layout (GetMTLVertexDesc). -/
structure MTShader where
  native : Option MTLFunction := some {}
  numPatchControlPoints : Nat := 0
  mtlVertexDesc : MTLVertexDescriptor := {}
deriving DecidableEq, Repr

/-- One attachment entry of a Metal render pass: the translator only reads
its pixel format. -/
structure MTAttachmentFormat where
  pixelFormat : MTLPixelFormat := 0
deriving DecidableEq, Repr

/-- Modelled from the spec: the resolved Metal render pass (MTRenderPass is
not under src).  The render-pass provider exposes the ordered colour
attachments, the depth and stencil attachments and the sample count. -/
structure MTRenderPass where
  colorAttachments : List MTAttachmentFormat := []
  depthAttachment : MTAttachmentFormat := {}
  stencilAttachment : MTAttachmentFormat := {}
  sampleCount : Nat := 1
deriving DecidableEq, Repr

/-- The LLGL graphics pipeline descriptor (the fields MTGraphicsPSO.mm
reads).  Shader stage handles are nullable pointers, hence `Option`. -/
structure GraphicsPipelineDescriptor where
  vertexShader : Option MTShader := none
  fragmentShader : Option MTShader := none
  tessControlShader : Option MTShader := none
  renderPass : Option MTRenderPass := none
  primitiveTopology : PrimitiveTopology := ⟨0⟩
  rasterizer : RasterizerDescriptor := {}
  blend : BlendDescriptor := {}
  depth : DepthDescriptor := {}
  stencil : StencilDescriptor := {}
  tessellation : TessellationDescriptor := {}
deriving Repr

/-- The two compile-time platforms of MTGraphicsPSO.mm: `ios` is the branch
compiled under LLGL_OS_IOS, `macos` the other one. -/
inductive TargetOS where
  | ios
  | macos
deriving DecidableEq, Repr

/-! ## Metal pipeline descriptors and native handles -/

/-- MTLRenderPipelineColorAttachmentDescriptor with its documented
alloc-init defaults (blending disabled, write mask all, source factors one,
destination factors zero, operations add, invalid pixel format). -/
structure MTLRenderPipelineColorAttachmentDescriptor where
  pixelFormat : MTLPixelFormat := 0
  writeMask : MTLColorWriteMask := 15
  blendingEnabled : Bool := false
  alphaBlendOperation : MTLBlendOperation := ⟨.add⟩
  rgbBlendOperation : MTLBlendOperation := ⟨.add⟩
  destinationAlphaBlendFactor : MTLBlendFactor := ⟨.zero⟩
  destinationRGBBlendFactor : MTLBlendFactor := ⟨.zero⟩
  sourceAlphaBlendFactor : MTLBlendFactor := ⟨.one⟩
  sourceRGBBlendFactor : MTLBlendFactor := ⟨.one⟩
deriving DecidableEq, Repr

/-- The seven tessellation properties of MTLRenderPipelineDescriptor that
MTGraphicsPSO.mm sets inside its `numPatchControlPoints_ > 0` block,
grouped; `none` in the pipeline descriptor means the block was skipped and
the properties keep their alloc-init values. -/
structure MTLTessellationState where
  maxTessellationFactor : Nat
  tessellationFactorScaleEnabled : Bool
  tessellationFactorFormat : MTLTessellationFactorFormat
  tessellationControlPointIndexType : MTLPatchIndexType
  tessellationFactorStepFunction : MTLTessellationFactorStepFunction
  tessellationOutputWindingOrder : MTLWinding
  tessellationPartitionMode : MTLPartitionMode
deriving DecidableEq, Repr

/-- MTLRenderPipelineDescriptor: the properties MTGraphicsPSO.mm assigns. -/
structure MTLRenderPipelineDescriptor where
  vertexDescriptor : MTLVertexDescriptor := {}
  alphaToCoverageEnabled : Bool := false
  alphaToOneEnabled : Bool := false
  fragmentFunction : Option MTLFunction := none
  vertexFunction : Option MTLFunction := none
  inputPrimitiveTopology : MTLPrimitiveTopologyClass := ⟨⟨0⟩⟩
  colorAttachments : Fin 8 → MTLRenderPipelineColorAttachmentDescriptor := fun _ => {}
  depthAttachmentPixelFormat : MTLPixelFormat := 0
  stencilAttachmentPixelFormat : MTLPixelFormat := 0
  rasterizationEnabled : Bool := true
  rasterSampleCount : Nat := 1
  tessellationState : Option MTLTessellationState := none
deriving Repr

/-- MTLStencilDescriptor with its alloc-init defaults. -/
structure MTLStencilDescriptor where
  stencilFailureOperation : MTLStencilOperation := .keep
  depthFailureOperation : MTLStencilOperation := .keep
  depthStencilPassOperation : MTLStencilOperation := .keep
  stencilCompareFunction : MTLCompareFunction := .always
  readMask : Nat := 4294967295
  writeMask : Nat := 4294967295
deriving DecidableEq, Repr

/-- MTLDepthStencilDescriptor: the properties MTGraphicsPSO.mm assigns. -/
structure MTLDepthStencilDescriptor where
  depthWriteEnabled : Bool := false
  depthCompareFunction : MTLCompareFunction := .always
  frontFaceStencil : MTLStencilDescriptor := {}
  backFaceStencil : MTLStencilDescriptor := {}
deriving DecidableEq, Repr

/-- Native MTLRenderPipelineState handle, carrying the descriptor it was
created from (which is all a test can observe about it here). -/
structure MTLRenderPipelineState where
  desc : MTLRenderPipelineDescriptor
deriving Repr

/-- Native MTLComputePipelineState handle, carrying the function it was
created from. -/
structure MTLComputePipelineState where
  fn : Option MTLFunction
deriving DecidableEq, Repr

/-- Native MTLDepthStencilState handle, carrying the descriptor it was
created from. -/
structure MTLDepthStencilState where
  desc : MTLDepthStencilDescriptor
deriving DecidableEq, Repr

/-- The opaque native device (spec section 6): its two fallible pipeline
factory entry points used by MTGraphicsPSO.mm (`none` models a nil result
with an error).  The non-failing newDepthStencilStateWithDescriptor call is
deterministic: the state it returns is fully determined by, and carries,
the descriptor, so it needs no device field. -/
structure MTDevice where
  newRenderPipelineState : MTLRenderPipelineDescriptor → Option MTLRenderPipelineState
  newComputePipelineState : Option MTLFunction → Option MTLComputePipelineState

/-- A device whose factory calls all succeed. -/
def mtDeviceOk : MTDevice where
  newRenderPipelineState := fun d => some ⟨d⟩
  newComputePipelineState := fun f => some ⟨f⟩

/-- The errors thrown by MTGraphicsPSO.mm: `invalidArgument` models
`throw std::invalid_argument(msg)`, `backendCreationFailed what` models
`MTThrowIfCreateFailed(error, what)`. -/
inductive PipelineError where
  | invalidArgument (msg : String)
  | backendCreationFailed (what : String)
deriving DecidableEq, Repr

/-- One native factory call performed during translation, together with its
result; the translator is instrumented to log these. -/
inductive NativeCall where
  | renderPipelineCreate (result : Option MTLRenderPipelineState)
  | computePipelineCreate (result : Option MTLComputePipelineState)
  | depthStencilCreate (result : MTLDepthStencilState)
deriving Repr

/-! ## The translator (MTGraphicsPSO.mm) -/

/-- ToMTLColorWriteMask (MTGraphicsPSO.mm lines 113 to 127). -/
def toMTLColorWriteMask (color : ColorRGBAb) : MTLColorWriteMask :=
  let mask := MTLColorWriteMaskNone
  let mask := if color.r then mask ||| MTLColorWriteMaskRed else mask
  let mask := if color.g then mask ||| MTLColorWriteMaskGreen else mask
  let mask := if color.b then mask ||| MTLColorWriteMaskBlue else mask
  let mask := if color.a then mask ||| MTLColorWriteMaskAlpha else mask
  mask

/-- FillColorAttachmentDesc (MTGraphicsPSO.mm lines 129 to 149): every
property of the colour-attachment descriptor is assigned. -/
def fillColorAttachmentDesc (pixelFormat : MTLPixelFormat)
    (blendDesc : BlendDescriptor) (targetDesc : BlendTargetDescriptor) :
    MTLRenderPipelineColorAttachmentDescriptor where
  pixelFormat := pixelFormat
  writeMask := toMTLColorWriteMask targetDesc.colorMask
  blendingEnabled := targetDesc.blendEnabled
  alphaBlendOperation := toMTLBlendOperation targetDesc.alphaArithmetic
  rgbBlendOperation := toMTLBlendOperation targetDesc.colorArithmetic
  destinationAlphaBlendFactor := toMTLBlendFactor targetDesc.dstAlpha
  destinationRGBBlendFactor := toMTLBlendFactor targetDesc.dstColor
  sourceAlphaBlendFactor := toMTLBlendFactor targetDesc.srcAlpha
  sourceRGBBlendFactor := toMTLBlendFactor targetDesc.srcColor

/-- GetNativeMTShader (MTGraphicsPSO.mm lines 151 to 154): nil for a null
shader handle, the shader function otherwise. -/
def getNativeMTShader (shader : Option MTShader) : Option MTLFunction :=
  match shader with
  | some s => s.native
  | none => none

/-- Lines 169 to 170: the patch type read from the native vertex function
when it is non-nil; the member otherwise keeps its zero-initialised value
MTLPatchTypeNone. -/
def vertexPatchType (vertexShaderMT : MTShader) : MTLPatchType :=
  match vertexShaderMT.native with
  | some vertexFunc => vertexFunc.patchType
  | none => MTLPatchType.none

/-- Lines 172 to 179 without the throw: the explicit render pass of the
descriptor takes priority over the default render pass. -/
def resolveRenderPass (renderPass defaultRenderPass : Option MTRenderPass) :
    Option MTRenderPass :=
  match renderPass with
  | some rp => some rp
  | none => defaultRenderPass

/-- Lines 182 to 225: the MTLRenderPipelineDescriptor populated by
CreateRenderPipelineState (the iOS 12 availability guard on the input
primitive topology is assumed satisfied).  The colour-attachment loop of
lines 194 to 203 runs for i below min(colorAttachments.size, 8) and leaves
the remaining attachments at their alloc-init defaults; the tessellation
block of lines 210 to 224 runs only for a positive patch-control-point
count, with the platform-dependent clamp of lines 213 to 217. -/
def buildPSODesc (os : TargetOS) (desc : GraphicsPipelineDescriptor)
    (vertexShaderMT : MTShader) (renderPassMT : MTRenderPass)
    (numPatchControlPoints : Nat) : MTLRenderPipelineDescriptor where
  vertexDescriptor := vertexShaderMT.mtlVertexDesc
  alphaToCoverageEnabled := desc.blend.alphaToCoverageEnabled
  alphaToOneEnabled := false
  fragmentFunction := getNativeMTShader desc.fragmentShader
  vertexFunction := getNativeMTShader desc.vertexShader
  inputPrimitiveTopology := toMTLPrimitiveTopologyClass desc.primitiveTopology
  colorAttachments := fun i =>
    if h : i.val < min renderPassMT.colorAttachments.length 8 then
      fillColorAttachmentDesc
        (renderPassMT.colorAttachments.get ⟨i.val, by omega⟩).pixelFormat
        desc.blend
        (desc.blend.targets (if desc.blend.independentBlendEnabled then i else 0))
    else
      {}
  depthAttachmentPixelFormat := renderPassMT.depthAttachment.pixelFormat
  stencilAttachmentPixelFormat := renderPassMT.stencilAttachment.pixelFormat
  rasterizationEnabled := !desc.rasterizer.discardEnabled
  rasterSampleCount :=
    if desc.rasterizer.multiSampleEnabled then renderPassMT.sampleCount else 1
  tessellationState :=
    if numPatchControlPoints > 0 then
      some
        { maxTessellationFactor :=
            match os with
            | .ios => min desc.tessellation.maxTessFactor 16
            | .macos => min desc.tessellation.maxTessFactor 64
          tessellationFactorScaleEnabled := false
          tessellationFactorFormat := .half
          tessellationControlPointIndexType :=
            toMTLPatchIndexType desc.tessellation.indexFormat
          tessellationFactorStepFunction := .perPatchAndPerInstance
          tessellationOutputWindingOrder :=
            if desc.tessellation.outputWindingCCW then
              .counterClockwise
            else
              .clockwise
          tessellationPartitionMode :=
            toMTLPartitionMode desc.tessellation.partition }
    else
      none

/-- The successful outcome of CreateRenderPipelineState: the member fields
it assigns. -/
structure RenderPipelineResult where
  numPatchControlPoints : Nat
  patchType : MTLPatchType
  renderPipelineState : MTLRenderPipelineState
  tessPipelineState : Option MTLComputePipelineState
deriving Repr

/-- MTGraphicsPSO::CreateRenderPipelineState (lines 156 to 245), with the
native factory calls it performs logged in order.  Thrown C++ exceptions
become `Except.error`; calls made before the throw stay in the log. -/
def createRenderPipelineState (os : TargetOS) (device : MTDevice)
    (desc : GraphicsPipelineDescriptor) (defaultRenderPass : Option MTRenderPass) :
    Except PipelineError RenderPipelineResult × List NativeCall :=
  match desc.vertexShader with
  | none =>
    (.error (.invalidArgument "cannot create Metal pipeline without vertex shader"), [])
  | some vertexShaderMT =>
    let numPatchControlPoints := vertexShaderMT.numPatchControlPoints
    let patchType := vertexPatchType vertexShaderMT
    match resolveRenderPass desc.renderPass defaultRenderPass with
    | none =>
      (.error (.invalidArgument "cannot create graphics pipeline without render pass"), [])
    | some renderPassMT =>
      let psoDesc := buildPSODesc os desc vertexShaderMT renderPassMT numPatchControlPoints
      match device.newRenderPipelineState psoDesc with
      | none =>
        (.error (.backendCreationFailed "MTLRenderPipelineState"),
         [.renderPipelineCreate none])
      | some renderPipelineState =>
        if numPatchControlPoints > 0 then
          match desc.tessControlShader with
          | some tessComputeShaderMT =>
            match device.newComputePipelineState tessComputeShaderMT.native with
            | none =>
              (.error (.backendCreationFailed "MTLComputePipelineState"),
               [.renderPipelineCreate (some renderPipelineState),
                .computePipelineCreate none])
            | some tessPipelineState =>
              (.ok
                { numPatchControlPoints := numPatchControlPoints
                  patchType := patchType
                  renderPipelineState := renderPipelineState
                  tessPipelineState := some tessPipelineState },
               [.renderPipelineCreate (some renderPipelineState),
                .computePipelineCreate (some tessPipelineState)])
          | none =>
            (.error
              (.invalidArgument
                "cannot create Metal tessellation pipeline without tessellation compute shader"),
             [.renderPipelineCreate (some renderPipelineState)])
        else
          (.ok
            { numPatchControlPoints := numPatchControlPoints
              patchType := patchType
              renderPipelineState := renderPipelineState
              tessPipelineState := none },
           [.renderPipelineCreate (some renderPipelineState)])

/-- Convert (MTGraphicsPSO.mm lines 24 to 32): an LLGL stencil face into a
Metal stencil descriptor. -/
def convertStencilDesc (src : StencilFaceDescriptor) : MTLStencilDescriptor where
  stencilFailureOperation := toMTLStencilOperation src.stencilFailOp
  depthFailureOperation := toMTLStencilOperation src.depthFailOp
  depthStencilPassOperation := toMTLStencilOperation src.depthPassOp
  stencilCompareFunction := toMTLCompareFunction src.compareOp
  readMask := src.readMask
  writeMask := src.writeMask

/-- FillDefaultMTStencilDesc (MTGraphicsPSO.mm lines 34 to 42): the
backend-neutral default stencil face installed when the stencil test is
disabled. -/
def fillDefaultMTStencilDesc : MTLStencilDescriptor where
  stencilFailureOperation := .keep
  depthFailureOperation := .keep
  depthStencilPassOperation := .keep
  stencilCompareFunction := .always
  readMask := 0
  writeMask := 0

/-- The outcome of CreateDepthStencilState: the member fields it assigns. -/
structure DepthStencilResult where
  depthStencilState : MTLDepthStencilState
  stencilFrontRef : Nat
  stencilBackRef : Nat
  stencilRefDynamic : Bool
deriving DecidableEq, Repr

/-- MTGraphicsPSO::CreateDepthStencilState (lines 247 to 279). -/
def createDepthStencilState (device : MTDevice)
    (desc : GraphicsPipelineDescriptor) : DepthStencilResult :=
  let depthStencilDesc : MTLDepthStencilDescriptor :=
    { depthWriteEnabled := desc.depth.writeEnabled
      depthCompareFunction :=
        if desc.depth.testEnabled then
          toMTLCompareFunction desc.depth.compareOp
        else
          MTLCompareFunction.always
      frontFaceStencil :=
        if desc.stencil.testEnabled then
          convertStencilDesc desc.stencil.front
        else
          fillDefaultMTStencilDesc
      backFaceStencil :=
        if desc.stencil.testEnabled then
          convertStencilDesc desc.stencil.back
        else
          fillDefaultMTStencilDesc }
  { depthStencilState := ⟨depthStencilDesc⟩
    stencilFrontRef := desc.stencil.front.reference
    stencilBackRef := desc.stencil.back.reference
    stencilRefDynamic := desc.stencil.referenceDynamic }

/-- Modelled from the spec: LLGL IsStaticBlendFactorEnabled
(PipelineStateUtils is not under src).  True when the blend constant is not
dynamic and some blend target uses the static blend-constant factor. -/
def isStaticBlendFactorEnabled (blend : BlendDescriptor) : Bool :=
  !blend.blendFactorDynamic &&
    (List.finRange 8).any fun i =>
      let t := blend.targets i
      (t.srcColor = BlendOp.blendFactor || t.srcColor = BlendOp.invBlendFactor ||
       t.dstColor = BlendOp.blendFactor || t.dstColor = BlendOp.invBlendFactor ||
       t.srcAlpha = BlendOp.blendFactor || t.srcAlpha = BlendOp.invBlendFactor ||
       t.dstAlpha = BlendOp.blendFactor || t.dstAlpha = BlendOp.invBlendFactor)

/-- The MTGraphicsPSO object: every member field assigned by the
constructor (MTGraphicsPSO.mm lines 44 to 72 plus the two private creation
helpers). -/
structure MTGraphicsPSO where
  isGraphicsPSO : Bool
  cullMode : MTLCullMode
  winding : MTLWinding
  fillMode : MTLTriangleFillMode
  primitiveType : MTLPrimitiveType
  clipMode : MTLDepthClipMode
  depthBias : MTFloat
  depthSlope : MTFloat
  depthClamp : MTFloat
  blendColorDynamic : Bool
  blendColorEnabled : Bool
  blendColor : ColorRGBAf
  numPatchControlPoints : Nat
  patchType : MTLPatchType
  renderPipelineState : MTLRenderPipelineState
  tessPipelineState : Option MTLComputePipelineState
  depthStencilState : MTLDepthStencilState
  stencilFrontRef : Nat
  stencilBackRef : Nat
  stencilRefDynamic : Bool
deriving Repr

/-- The full translation entry point: the MTGraphicsPSO constructor
(lines 44 to 72), converting the standalone parameters and then running
CreateRenderPipelineState and CreateDepthStencilState.  Returns the
constructed object or the first error thrown, together with the ordered
log of native factory calls. -/
def translateGraphicsPSO (os : TargetOS) (device : MTDevice)
    (desc : GraphicsPipelineDescriptor) (defaultRenderPass : Option MTRenderPass) :
    Except PipelineError MTGraphicsPSO × List NativeCall :=
  match createRenderPipelineState os device desc defaultRenderPass with
  | (.error e, calls) => (.error e, calls)
  | (.ok rps, calls) =>
    let ds := createDepthStencilState device desc
    (.ok
      { isGraphicsPSO := true
        cullMode := toMTLCullMode desc.rasterizer.cullMode
        winding :=
          if desc.rasterizer.frontCCW then .counterClockwise else .clockwise
        fillMode := toMTLTriangleFillMode desc.rasterizer.polygonMode
        primitiveType := toMTLPrimitiveType desc.primitiveTopology
        clipMode :=
          if desc.rasterizer.depthClampEnabled then .clamp else .clip
        depthBias := desc.rasterizer.depthBias.constantFactor
        depthSlope := desc.rasterizer.depthBias.slopeFactor
        depthClamp := desc.rasterizer.depthBias.clamp
        blendColorDynamic := desc.blend.blendFactorDynamic
        blendColorEnabled := isStaticBlendFactorEnabled desc.blend
        blendColor := desc.blend.blendFactor
        numPatchControlPoints := rps.numPatchControlPoints
        patchType := rps.patchType
        renderPipelineState := rps.renderPipelineState
        tessPipelineState := rps.tessPipelineState
        depthStencilState := ds.depthStencilState
        stencilFrontRef := ds.stencilFrontRef
        stencilBackRef := ds.stencilBackRef
        stencilRefDynamic := ds.stencilRefDynamic },
     calls ++ [.depthStencilCreate ds.depthStencilState])

/-! ## The bind-time replayer (MTGraphicsPSO::Bind, lines 74 to 106) -/

/-- One call issued on the render command encoder by Bind. -/
inductive EncoderCall where
  | setRenderPipelineState (s : MTLRenderPipelineState)
  | setDepthStencilState (s : MTLDepthStencilState)
  | setCullMode (m : MTLCullMode)
  | setFrontFacingWinding (w : MTLWinding)
  | setTriangleFillMode (m : MTLTriangleFillMode)
  | setDepthClipMode (m : MTLDepthClipMode)
  | setDepthBias (bias slope clamp : MTFloat)
  | setStencilFrontBackReferenceValue (front back : Nat)
  | setStencilReferenceValue (v : Nat)
  | setBlendColor (r g b a : MTFloat)
deriving Repr

/-- MTGraphicsPSO::Bind (lines 74 to 106) as the ordered list of encoder
calls it issues.  The availability guard on setDepthClipMode is assumed
satisfied; the block of lines 85 to 95 (depth bias and static stencil
reference) is compiled out under LLGL_OS_IOS. -/
def bindGraphicsPSO (os : TargetOS) (pso : MTGraphicsPSO) : List EncoderCall :=
  [.setRenderPipelineState pso.renderPipelineState,
   .setDepthStencilState pso.depthStencilState,
   .setCullMode pso.cullMode,
   .setFrontFacingWinding pso.winding,
   .setTriangleFillMode pso.fillMode,
   .setDepthClipMode pso.clipMode] ++
  (match os with
   | .ios => []
   | .macos =>
     [.setDepthBias pso.depthBias pso.depthSlope pso.depthClamp] ++
     (if !pso.stencilRefDynamic then
        if pso.stencilFrontRef ≠ pso.stencilBackRef then
          [.setStencilFrontBackReferenceValue pso.stencilFrontRef pso.stencilBackRef]
        else
          [.setStencilReferenceValue pso.stencilFrontRef]
      else
        [])) ++
  (if pso.blendColorEnabled then
     [.setBlendColor pso.blendColor.r pso.blendColor.g pso.blendColor.b pso.blendColor.a]
   else
     [])

/-- True for the two stencil-reference encoder calls. -/
def isStencilRefCall : EncoderCall → Bool
  | .setStencilReferenceValue _ => true
  | .setStencilFrontBackReferenceValue _ _ => true
  | _ => false

/-! ## Helper lemmas about the translator -/

/-- Unfolding of CreateRenderPipelineState on the ok device when the vertex
stage reports no patch control points. -/
theorem createRenderPipelineState_noTess (os : TargetOS)
    (desc : GraphicsPipelineDescriptor) (drp : Option MTRenderPass)
    (vs : MTShader) (rp : MTRenderPass)
    (hv : desc.vertexShader = some vs)
    (hr : resolveRenderPass desc.renderPass drp = some rp)
    (hn : vs.numPatchControlPoints = 0) :
    createRenderPipelineState os mtDeviceOk desc drp =
      (.ok
        { numPatchControlPoints := 0
          patchType := vertexPatchType vs
          renderPipelineState := ⟨buildPSODesc os desc vs rp 0⟩
          tessPipelineState := none },
       [.renderPipelineCreate (some ⟨buildPSODesc os desc vs rp 0⟩)]) := by
  simp [createRenderPipelineState, hv, hr, hn, mtDeviceOk]

/-- Unfolding of CreateRenderPipelineState on the ok device when the vertex
stage reports patch control points and a tessellation-control shader is
supplied. -/
theorem createRenderPipelineState_tessOk (os : TargetOS)
    (desc : GraphicsPipelineDescriptor) (drp : Option MTRenderPass)
    (vs : MTShader) (rp : MTRenderPass) (tcs : MTShader)
    (hv : desc.vertexShader = some vs)
    (hr : resolveRenderPass desc.renderPass drp = some rp)
    (hn : 0 < vs.numPatchControlPoints)
    (ht : desc.tessControlShader = some tcs) :
    createRenderPipelineState os mtDeviceOk desc drp =
      (.ok
        { numPatchControlPoints := vs.numPatchControlPoints
          patchType := vertexPatchType vs
          renderPipelineState :=
            ⟨buildPSODesc os desc vs rp vs.numPatchControlPoints⟩
          tessPipelineState := some ⟨tcs.native⟩ },
       [.renderPipelineCreate
          (some ⟨buildPSODesc os desc vs rp vs.numPatchControlPoints⟩),
        .computePipelineCreate (some ⟨tcs.native⟩)]) := by
  simp [createRenderPipelineState, hv, hr, ht, hn, mtDeviceOk]

/-- Unfolding of CreateRenderPipelineState on the ok device when the vertex
stage reports patch control points but no tessellation-control shader is
supplied: the invalid-argument throw of line 243 happens after the primary
pipeline state was created. -/
theorem createRenderPipelineState_tessMissing (os : TargetOS)
    (desc : GraphicsPipelineDescriptor) (drp : Option MTRenderPass)
    (vs : MTShader) (rp : MTRenderPass)
    (hv : desc.vertexShader = some vs)
    (hr : resolveRenderPass desc.renderPass drp = some rp)
    (hn : 0 < vs.numPatchControlPoints)
    (ht : desc.tessControlShader = none) :
    createRenderPipelineState os mtDeviceOk desc drp =
      (.error
        (.invalidArgument
          "cannot create Metal tessellation pipeline without tessellation compute shader"),
       [.renderPipelineCreate
          (some ⟨buildPSODesc os desc vs rp vs.numPatchControlPoints⟩)]) := by
  simp [createRenderPipelineState, hv, hr, ht, hn, mtDeviceOk]

/-- The constructor around a successful CreateRenderPipelineState. -/
theorem translateGraphicsPSO_of_createOk (os : TargetOS) (device : MTDevice)
    (desc : GraphicsPipelineDescriptor) (drp : Option MTRenderPass)
    (rps : RenderPipelineResult) (calls : List NativeCall)
    (h : createRenderPipelineState os device desc drp = (.ok rps, calls)) :
    translateGraphicsPSO os device desc drp =
      (.ok
        { isGraphicsPSO := true
          cullMode := toMTLCullMode desc.rasterizer.cullMode
          winding :=
            if desc.rasterizer.frontCCW then .counterClockwise else .clockwise
          fillMode := toMTLTriangleFillMode desc.rasterizer.polygonMode
          primitiveType := toMTLPrimitiveType desc.primitiveTopology
          clipMode :=
            if desc.rasterizer.depthClampEnabled then .clamp else .clip
          depthBias := desc.rasterizer.depthBias.constantFactor
          depthSlope := desc.rasterizer.depthBias.slopeFactor
          depthClamp := desc.rasterizer.depthBias.clamp
          blendColorDynamic := desc.blend.blendFactorDynamic
          blendColorEnabled := isStaticBlendFactorEnabled desc.blend
          blendColor := desc.blend.blendFactor
          numPatchControlPoints := rps.numPatchControlPoints
          patchType := rps.patchType
          renderPipelineState := rps.renderPipelineState
          tessPipelineState := rps.tessPipelineState
          depthStencilState := (createDepthStencilState device desc).depthStencilState
          stencilFrontRef := (createDepthStencilState device desc).stencilFrontRef
          stencilBackRef := (createDepthStencilState device desc).stencilBackRef
          stencilRefDynamic := (createDepthStencilState device desc).stencilRefDynamic },
       calls ++
        [.depthStencilCreate (createDepthStencilState device desc).depthStencilState]) := by
  simp [translateGraphicsPSO, h]

/-- The constructor around a failing CreateRenderPipelineState. -/
theorem translateGraphicsPSO_of_createError (os : TargetOS) (device : MTDevice)
    (desc : GraphicsPipelineDescriptor) (drp : Option MTRenderPass)
    (e : PipelineError) (calls : List NativeCall)
    (h : createRenderPipelineState os device desc drp = (.error e, calls)) :
    translateGraphicsPSO os device desc drp = (.error e, calls) := by
  simp [translateGraphicsPSO, h]

/-! ## Concrete inputs used by the witnesses -/

/-- A plain vertex shader: no patch control points. -/
def vsPlain : MTShader := {}

/-- A post-tessellation vertex shader reporting three patch control
points. -/
def vsPatch : MTShader := { numPatchControlPoints := 3 }

/-- A tessellation-control (compute) shader. -/
def tcsPlain : MTShader := { native := some { uid := 7 } }

/-- A render pass with a single colour attachment. -/
def rpOne : MTRenderPass := { colorAttachments := [⟨70⟩] }

/-- A render pass with nine colour attachments, one more than the
translator may use. -/
def rpNine : MTRenderPass :=
  { colorAttachments := [⟨1⟩, ⟨2⟩, ⟨3⟩, ⟨4⟩, ⟨5⟩, ⟨6⟩, ⟨7⟩, ⟨8⟩, ⟨9⟩] }

/-! ## The claims -/

/-- C4: for every call of Translate with a null vertex-shader handle, the
result is an InvalidArgument failure and no native pipeline-factory
creation call is performed (the call log is empty), on any device and
platform. -/
theorem spec_C4 (os : TargetOS) (device : MTDevice)
    (desc : GraphicsPipelineDescriptor) (defaultRenderPass : Option MTRenderPass)
    (hv : desc.vertexShader = none) :
    translateGraphicsPSO os device desc defaultRenderPass =
      (.error (.invalidArgument "cannot create Metal pipeline without vertex shader"),
       []) := by
  simp [translateGraphicsPSO, createRenderPipelineState, hv]

theorem spec_C4_witness :
    ({} : GraphicsPipelineDescriptor).vertexShader = none ∧
    translateGraphicsPSO TargetOS.macos mtDeviceOk {} none =
      (.error (.invalidArgument "cannot create Metal pipeline without vertex shader"),
       []) :=
  ⟨rfl, spec_C4 TargetOS.macos mtDeviceOk {} none rfl⟩

/-- C5: the effective render pass is desc.renderPass when non-null (the
default is then irrelevant), otherwise the default render pass when
non-null (translation then behaves exactly as if that pass had been passed
explicitly); when both are null, Translate fails with InvalidArgument (and
performs no native creation call). -/
theorem spec_C5 :
    (∀ (os : TargetOS) (device : MTDevice) (desc : GraphicsPipelineDescriptor)
        (drp : Option MTRenderPass) (rp : MTRenderPass),
        desc.renderPass = some rp →
        translateGraphicsPSO os device desc drp =
          translateGraphicsPSO os device desc none) ∧
    (∀ (os : TargetOS) (device : MTDevice) (desc : GraphicsPipelineDescriptor)
        (rp : MTRenderPass),
        desc.renderPass = none →
        translateGraphicsPSO os device desc (some rp) =
          translateGraphicsPSO os device { desc with renderPass := some rp } none) ∧
    (∀ (os : TargetOS) (device : MTDevice) (desc : GraphicsPipelineDescriptor)
        (vs : MTShader),
        desc.vertexShader = some vs → desc.renderPass = none →
        translateGraphicsPSO os device desc none =
          (.error (.invalidArgument "cannot create graphics pipeline without render pass"),
           [])) := by
  refine ⟨?_, ?_, ?_⟩
  · intro os device desc drp rp h
    cases hvs : desc.vertexShader with
    | none => simp [translateGraphicsPSO, createRenderPipelineState, hvs]
    | some vs =>
      simp [translateGraphicsPSO, createRenderPipelineState, resolveRenderPass, hvs, h]
  · intro os device desc rp h
    obtain ⟨vsf, fs, tcs, rpd, pt, rast, bl, dp, st, tess⟩ := desc
    subst h
    cases vsf with
    | none => simp [translateGraphicsPSO, createRenderPipelineState]
    | some vs =>
      simp [translateGraphicsPSO, createRenderPipelineState, resolveRenderPass,
        buildPSODesc, createDepthStencilState]
  · intro os device desc vs hv h
    simp [translateGraphicsPSO, createRenderPipelineState, resolveRenderPass, hv, h]

theorem spec_C5_witness :
    ({ vertexShader := some vsPlain, renderPass := some rpOne } :
        GraphicsPipelineDescriptor).renderPass = some rpOne ∧
    translateGraphicsPSO TargetOS.macos mtDeviceOk
        { vertexShader := some vsPlain, renderPass := some rpOne } (some rpNine) =
      translateGraphicsPSO TargetOS.macos mtDeviceOk
        { vertexShader := some vsPlain, renderPass := some rpOne } none ∧
    ({ vertexShader := some vsPlain } : GraphicsPipelineDescriptor).renderPass = none ∧
    translateGraphicsPSO TargetOS.macos mtDeviceOk
        { vertexShader := some vsPlain } (some rpOne) =
      translateGraphicsPSO TargetOS.macos mtDeviceOk
        { ({ vertexShader := some vsPlain } : GraphicsPipelineDescriptor) with
            renderPass := some rpOne } none ∧
    ({ vertexShader := some vsPlain } : GraphicsPipelineDescriptor).vertexShader =
      some vsPlain ∧
    translateGraphicsPSO TargetOS.macos mtDeviceOk
        { vertexShader := some vsPlain } none =
      (.error (.invalidArgument "cannot create graphics pipeline without render pass"),
       []) :=
  ⟨rfl,
   spec_C5.1 TargetOS.macos mtDeviceOk _ (some rpNine) rpOne rfl,
   rfl,
   spec_C5.2.1 TargetOS.macos mtDeviceOk _ rpOne rfl,
   rfl,
   spec_C5.2.2 TargetOS.macos mtDeviceOk _ vsPlain rfl rfl⟩

/-- C3: tessellation construction is gated exactly by the vertex stage's
patch-control-point count.  With zero patch control points the translated
pipeline descriptor has no tessellation fields populated and no secondary
tessellation pipeline, and translation succeeds with no tessellation-control
stage; with a positive count and a null tessellation-control stage handle,
Translate fails with InvalidArgument. -/
theorem spec_C3 :
    (∀ (os : TargetOS) (desc : GraphicsPipelineDescriptor)
        (drp : Option MTRenderPass) (vs : MTShader) (rp : MTRenderPass),
        desc.vertexShader = some vs →
        resolveRenderPass desc.renderPass drp = some rp →
        vs.numPatchControlPoints = 0 →
        desc.tessControlShader = none →
        ∃ pso, (translateGraphicsPSO os mtDeviceOk desc drp).1 = .ok pso ∧
          pso.renderPipelineState.desc.tessellationState = none ∧
          pso.tessPipelineState = none) ∧
    (∀ (os : TargetOS) (desc : GraphicsPipelineDescriptor)
        (drp : Option MTRenderPass) (vs : MTShader) (rp : MTRenderPass),
        desc.vertexShader = some vs →
        resolveRenderPass desc.renderPass drp = some rp →
        0 < vs.numPatchControlPoints →
        desc.tessControlShader = none →
        (translateGraphicsPSO os mtDeviceOk desc drp).1 =
          .error
            (.invalidArgument
              "cannot create Metal tessellation pipeline without tessellation compute shader")) := by
  constructor
  · intro os desc drp vs rp hv hr hn ht
    have hc := createRenderPipelineState_noTess os desc drp vs rp hv hr hn
    have htr := translateGraphicsPSO_of_createOk os mtDeviceOk desc drp _ _ hc
    refine ⟨_, by rw [htr], ?_, rfl⟩
    simp [buildPSODesc]
  · intro os desc drp vs rp hv hr hn ht
    have hc := createRenderPipelineState_tessMissing os desc drp vs rp hv hr hn ht
    have htr := translateGraphicsPSO_of_createError os mtDeviceOk desc drp _ _ hc
    rw [htr]

theorem spec_C3_witness :
    ({ vertexShader := some vsPlain, renderPass := some rpOne } :
        GraphicsPipelineDescriptor).vertexShader = some vsPlain ∧
    resolveRenderPass
        ({ vertexShader := some vsPlain, renderPass := some rpOne } :
          GraphicsPipelineDescriptor).renderPass none = some rpOne ∧
    vsPlain.numPatchControlPoints = 0 ∧
    ({ vertexShader := some vsPlain, renderPass := some rpOne } :
        GraphicsPipelineDescriptor).tessControlShader = none ∧
    (∃ pso,
      (translateGraphicsPSO TargetOS.macos mtDeviceOk
          { vertexShader := some vsPlain, renderPass := some rpOne } none).1 = .ok pso ∧
      pso.renderPipelineState.desc.tessellationState = none ∧
      pso.tessPipelineState = none) ∧
    ({ vertexShader := some vsPatch, renderPass := some rpOne } :
        GraphicsPipelineDescriptor).vertexShader = some vsPatch ∧
    0 < vsPatch.numPatchControlPoints ∧
    (translateGraphicsPSO TargetOS.macos mtDeviceOk
        { vertexShader := some vsPatch, renderPass := some rpOne } none).1 =
      .error
        (.invalidArgument
          "cannot create Metal tessellation pipeline without tessellation compute shader") :=
  ⟨rfl, rfl, rfl, rfl,
   spec_C3.1 TargetOS.macos _ none vsPlain rpOne rfl rfl rfl rfl,
   rfl, by decide,
   spec_C3.2 TargetOS.macos _ none vsPatch rpOne rfl rfl (by decide) rfl⟩

/-- C9: with a positive patch-control-point count the translated pipeline's
maximum tessellation factor is the descriptor's maxTessFactor clamped to
the platform's hard limit, 16 on iOS and 64 otherwise. -/
theorem spec_C9 (os : TargetOS) (desc : GraphicsPipelineDescriptor)
    (drp : Option MTRenderPass) (vs : MTShader) (rp : MTRenderPass) (tcs : MTShader)
    (hv : desc.vertexShader = some vs)
    (hr : resolveRenderPass desc.renderPass drp = some rp)
    (hn : 0 < vs.numPatchControlPoints)
    (ht : desc.tessControlShader = some tcs) :
    ∃ pso, (translateGraphicsPSO os mtDeviceOk desc drp).1 = .ok pso ∧
      (pso.renderPipelineState.desc.tessellationState.map
          fun ts => ts.maxTessellationFactor) =
        some
          (min desc.tessellation.maxTessFactor
            (match os with | .ios => 16 | .macos => 64)) := by
  have hc := createRenderPipelineState_tessOk os desc drp vs rp tcs hv hr hn ht
  have htr := translateGraphicsPSO_of_createOk os mtDeviceOk desc drp _ _ hc
  refine ⟨_, by rw [htr], ?_⟩
  simp only [buildPSODesc, hn, reduceIte]
  cases os <;> rfl

theorem spec_C9_witness :
    ({ vertexShader := some vsPatch, tessControlShader := some tcsPlain,
        renderPass := some rpOne,
        tessellation := { maxTessFactor := 40 } } :
        GraphicsPipelineDescriptor).vertexShader = some vsPatch ∧
    0 < vsPatch.numPatchControlPoints ∧
    (∃ pso,
      (translateGraphicsPSO TargetOS.ios mtDeviceOk
          { vertexShader := some vsPatch, tessControlShader := some tcsPlain,
            renderPass := some rpOne,
            tessellation := { maxTessFactor := 40 } } none).1 = .ok pso ∧
      (pso.renderPipelineState.desc.tessellationState.map
          fun ts => ts.maxTessellationFactor) = some (min 40 16)) :=
  ⟨rfl, by decide,
   spec_C9 TargetOS.ios _ none vsPatch rpOne tcsPlain rfl rfl (by decide) rfl⟩

/-- C10: when the patch-control-point count is positive and the
tessellation-control handle is null, the InvalidArgument failure is raised
only after the primary native pipeline state was successfully created: the
call log at the error holds exactly one successful render-pipeline factory
call.  In the missing-vertex-shader and missing-render-pass failure cases,
by contrast, the call log is empty. -/
theorem spec_C10 :
    (∀ (os : TargetOS) (desc : GraphicsPipelineDescriptor)
        (drp : Option MTRenderPass) (vs : MTShader) (rp : MTRenderPass),
        desc.vertexShader = some vs →
        resolveRenderPass desc.renderPass drp = some rp →
        0 < vs.numPatchControlPoints →
        desc.tessControlShader = none →
        (translateGraphicsPSO os mtDeviceOk desc drp).1 =
          .error
            (.invalidArgument
              "cannot create Metal tessellation pipeline without tessellation compute shader") ∧
        ∃ h : MTLRenderPipelineState,
          mtDeviceOk.newRenderPipelineState
              (buildPSODesc os desc vs rp vs.numPatchControlPoints) = some h ∧
          (translateGraphicsPSO os mtDeviceOk desc drp).2 =
            [.renderPipelineCreate (some h)]) ∧
    (∀ (os : TargetOS) (device : MTDevice) (desc : GraphicsPipelineDescriptor)
        (drp : Option MTRenderPass),
        desc.vertexShader = none →
        (translateGraphicsPSO os device desc drp).2 = []) ∧
    (∀ (os : TargetOS) (device : MTDevice) (desc : GraphicsPipelineDescriptor)
        (drp : Option MTRenderPass) (vs : MTShader),
        desc.vertexShader = some vs →
        resolveRenderPass desc.renderPass drp = none →
        (translateGraphicsPSO os device desc drp).2 = []) := by
  refine ⟨?_, ?_, ?_⟩
  · intro os desc drp vs rp hv hr hn ht
    have hc := createRenderPipelineState_tessMissing os desc drp vs rp hv hr hn ht
    have htr := translateGraphicsPSO_of_createError os mtDeviceOk desc drp _ _ hc
    rw [htr]
    exact ⟨rfl, ⟨buildPSODesc os desc vs rp vs.numPatchControlPoints⟩, rfl, rfl⟩
  · intro os device desc drp hv
    simp [translateGraphicsPSO, createRenderPipelineState, hv]
  · intro os device desc drp vs hv hr
    simp [translateGraphicsPSO, createRenderPipelineState, hv, hr]

theorem spec_C10_witness :
    ({ vertexShader := some vsPatch, renderPass := some rpOne } :
        GraphicsPipelineDescriptor).vertexShader = some vsPatch ∧
    resolveRenderPass
        ({ vertexShader := some vsPatch, renderPass := some rpOne } :
          GraphicsPipelineDescriptor).renderPass none = some rpOne ∧
    0 < vsPatch.numPatchControlPoints ∧
    ({ vertexShader := some vsPatch, renderPass := some rpOne } :
        GraphicsPipelineDescriptor).tessControlShader = none ∧
    ((translateGraphicsPSO TargetOS.macos mtDeviceOk
        { vertexShader := some vsPatch, renderPass := some rpOne } none).1 =
      .error
        (.invalidArgument
          "cannot create Metal tessellation pipeline without tessellation compute shader") ∧
     ∃ h : MTLRenderPipelineState,
       mtDeviceOk.newRenderPipelineState
           (buildPSODesc TargetOS.macos
             { vertexShader := some vsPatch, renderPass := some rpOne }
             vsPatch rpOne vsPatch.numPatchControlPoints) = some h ∧
       (translateGraphicsPSO TargetOS.macos mtDeviceOk
           { vertexShader := some vsPatch, renderPass := some rpOne } none).2 =
         [.renderPipelineCreate (some h)]) ∧
    (translateGraphicsPSO TargetOS.macos mtDeviceOk {} none).2 = [] ∧
    (translateGraphicsPSO TargetOS.macos mtDeviceOk
        { vertexShader := some vsPatch } none).2 = [] :=
  ⟨rfl, rfl, by decide, rfl,
   spec_C10.1 TargetOS.macos _ none vsPatch rpOne rfl rfl (by decide) rfl,
   spec_C10.2.1 TargetOS.macos mtDeviceOk {} none rfl,
   spec_C10.2.2 TargetOS.macos mtDeviceOk _ none vsPatch rfl rfl⟩

/-- C1: the translator populates native colour-attachment descriptors for
exactly the indices below min(colorAttachments.count, 8): those indices get
the filled descriptor for attachment i, higher indices keep their alloc-init
defaults, translation does not fail, and the built pipeline descriptor
depends only on the first eight attachments (it is unchanged when the
attachment list is truncated to eight entries). -/
theorem spec_C1 (os : TargetOS) (desc : GraphicsPipelineDescriptor)
    (drp : Option MTRenderPass) (vs : MTShader) (rp : MTRenderPass)
    (hv : desc.vertexShader = some vs)
    (hr : resolveRenderPass desc.renderPass drp = some rp)
    (hn : vs.numPatchControlPoints = 0) :
    ∃ pso, (translateGraphicsPSO os mtDeviceOk desc drp).1 = .ok pso ∧
      pso.renderPipelineState.desc = buildPSODesc os desc vs rp 0 ∧
      (∀ i : Fin 8, (h : i.val < min rp.colorAttachments.length 8) →
        pso.renderPipelineState.desc.colorAttachments i =
          fillColorAttachmentDesc
            (rp.colorAttachments.get ⟨i.val, by omega⟩).pixelFormat
            desc.blend
            (desc.blend.targets
              (if desc.blend.independentBlendEnabled then i else 0))) ∧
      (∀ i : Fin 8, min rp.colorAttachments.length 8 ≤ i.val →
        pso.renderPipelineState.desc.colorAttachments i = {}) ∧
      buildPSODesc os desc vs rp 0 =
        buildPSODesc os desc vs
          { rp with colorAttachments := rp.colorAttachments.take 8 } 0 := by
  have hc := createRenderPipelineState_noTess os desc drp vs rp hv hr hn
  have htr := translateGraphicsPSO_of_createOk os mtDeviceOk desc drp _ _ hc
  refine ⟨_, by rw [htr], rfl, ?_, ?_, ?_⟩
  · intro i h
    show (buildPSODesc os desc vs rp 0).colorAttachments i = _
    simp only [buildPSODesc]
    rw [dif_pos h]
  · intro i h
    show (buildPSODesc os desc vs rp 0).colorAttachments i = _
    simp only [buildPSODesc]
    rw [dif_neg (by omega)]
  · simp only [buildPSODesc, MTLRenderPipelineDescriptor.mk.injEq, List.length_take,
      true_and, and_true]
    funext i
    by_cases h : i.val < min rp.colorAttachments.length 8
    · rw [dif_pos h, dif_pos (by omega)]
      simp only [List.get_eq_getElem, List.getElem_take]
    · rw [dif_neg (by omega), dif_neg (by omega)]

theorem spec_C1_witness :
    ({ vertexShader := some vsPlain, renderPass := some rpNine } :
        GraphicsPipelineDescriptor).vertexShader = some vsPlain ∧
    resolveRenderPass
        ({ vertexShader := some vsPlain, renderPass := some rpNine } :
          GraphicsPipelineDescriptor).renderPass none = some rpNine ∧
    vsPlain.numPatchControlPoints = 0 ∧
    rpNine.colorAttachments.length = 9 ∧
    (∃ pso,
      (translateGraphicsPSO TargetOS.macos mtDeviceOk
          { vertexShader := some vsPlain, renderPass := some rpNine } none).1 =
        .ok pso ∧
      pso.renderPipelineState.desc =
        buildPSODesc TargetOS.macos
          { vertexShader := some vsPlain, renderPass := some rpNine } vsPlain rpNine 0 ∧
      (∀ i : Fin 8, (h : i.val < min rpNine.colorAttachments.length 8) →
        pso.renderPipelineState.desc.colorAttachments i =
          fillColorAttachmentDesc
            (rpNine.colorAttachments.get ⟨i.val, by omega⟩).pixelFormat
            ({ vertexShader := some vsPlain, renderPass := some rpNine } :
              GraphicsPipelineDescriptor).blend
            (({ vertexShader := some vsPlain, renderPass := some rpNine } :
              GraphicsPipelineDescriptor).blend.targets
              (if ({ vertexShader := some vsPlain, renderPass := some rpNine } :
                  GraphicsPipelineDescriptor).blend.independentBlendEnabled then i
               else 0))) ∧
      (∀ i : Fin 8, min rpNine.colorAttachments.length 8 ≤ i.val →
        pso.renderPipelineState.desc.colorAttachments i = {}) ∧
      buildPSODesc TargetOS.macos
          { vertexShader := some vsPlain, renderPass := some rpNine } vsPlain rpNine 0 =
        buildPSODesc TargetOS.macos
          { vertexShader := some vsPlain, renderPass := some rpNine } vsPlain
          { rpNine with colorAttachments := rpNine.colorAttachments.take 8 } 0) :=
  ⟨rfl, rfl, rfl, rfl,
   spec_C1 TargetOS.macos _ none vsPlain rpNine rfl rfl rfl⟩

/-- The eight observable blend parameters of a native colour-attachment
descriptor: blend enable, colour write mask, the four factors and the two
operations. -/
def attachmentBlendParams (d : MTLRenderPipelineColorAttachmentDescriptor) :
    Bool × MTLColorWriteMask × MTLBlendFactor × MTLBlendFactor × MTLBlendOperation ×
      MTLBlendFactor × MTLBlendFactor × MTLBlendOperation :=
  (d.blendingEnabled, d.writeMask, d.sourceRGBBlendFactor, d.destinationRGBBlendFactor,
   d.rgbBlendOperation, d.sourceAlphaBlendFactor, d.destinationAlphaBlendFactor,
   d.alphaBlendOperation)

/-- The same eight parameters as FillColorAttachmentDesc derives them from
an LLGL blend target. -/
def targetBlendParams (t : BlendTargetDescriptor) :
    Bool × MTLColorWriteMask × MTLBlendFactor × MTLBlendFactor × MTLBlendOperation ×
      MTLBlendFactor × MTLBlendFactor × MTLBlendOperation :=
  (t.blendEnabled, toMTLColorWriteMask t.colorMask, toMTLBlendFactor t.srcColor,
   toMTLBlendFactor t.dstColor, toMTLBlendOperation t.colorArithmetic,
   toMTLBlendFactor t.srcAlpha, toMTLBlendFactor t.dstAlpha,
   toMTLBlendOperation t.alphaArithmetic)

/-- C2: with independentBlendEnabled = false every populated colour
attachment receives the blend parameters of blend.targets[0], whatever its
own blend.targets[i] holds; with independentBlendEnabled = true attachment
i receives the parameters of blend.targets[i]. -/
theorem spec_C2 (os : TargetOS) (desc : GraphicsPipelineDescriptor)
    (drp : Option MTRenderPass) (vs : MTShader) (rp : MTRenderPass)
    (hv : desc.vertexShader = some vs)
    (hr : resolveRenderPass desc.renderPass drp = some rp)
    (hn : vs.numPatchControlPoints = 0) :
    ∃ pso, (translateGraphicsPSO os mtDeviceOk desc drp).1 = .ok pso ∧
      ∀ i : Fin 8, i.val < min rp.colorAttachments.length 8 →
        (desc.blend.independentBlendEnabled = false →
          attachmentBlendParams (pso.renderPipelineState.desc.colorAttachments i) =
            targetBlendParams (desc.blend.targets 0)) ∧
        (desc.blend.independentBlendEnabled = true →
          attachmentBlendParams (pso.renderPipelineState.desc.colorAttachments i) =
            targetBlendParams (desc.blend.targets i)) := by
  have hc := createRenderPipelineState_noTess os desc drp vs rp hv hr hn
  have htr := translateGraphicsPSO_of_createOk os mtDeviceOk desc drp _ _ hc
  refine ⟨_, by rw [htr], ?_⟩
  intro i h
  constructor
  · intro hb
    show attachmentBlendParams ((buildPSODesc os desc vs rp 0).colorAttachments i) = _
    simp only [buildPSODesc]
    rw [dif_pos h]
    simp [hb, attachmentBlendParams, targetBlendParams, fillColorAttachmentDesc]
  · intro hb
    show attachmentBlendParams ((buildPSODesc os desc vs rp 0).colorAttachments i) = _
    simp only [buildPSODesc]
    rw [dif_pos h]
    simp [hb, attachmentBlendParams, targetBlendParams, fillColorAttachmentDesc]

/-- A blend descriptor whose target 0 enables blending and whose other
targets are left at their defaults (blending disabled): with
independentBlendEnabled left false, every attachment must nevertheless
follow target 0. -/
def blendC2 : BlendDescriptor :=
  { independentBlendEnabled := false
    targets := fun i =>
      if i.val = 0 then
        { blendEnabled := true, srcColor := .one, dstColor := .one,
          colorArithmetic := .subtract, srcAlpha := .one, dstAlpha := .one,
          alphaArithmetic := .subtract, colorMask := { r := true, g := false, b := false, a := false } }
      else
        {} }

theorem spec_C2_witness :
    ({ vertexShader := some vsPlain, renderPass := some rpNine, blend := blendC2 } :
        GraphicsPipelineDescriptor).vertexShader = some vsPlain ∧
    resolveRenderPass
        ({ vertexShader := some vsPlain, renderPass := some rpNine, blend := blendC2 } :
          GraphicsPipelineDescriptor).renderPass none = some rpNine ∧
    vsPlain.numPatchControlPoints = 0 ∧
    blendC2.independentBlendEnabled = false ∧
    (blendC2.targets 5).blendEnabled = false ∧
    (blendC2.targets 0).blendEnabled = true ∧
    (∃ pso,
      (translateGraphicsPSO TargetOS.macos mtDeviceOk
          { vertexShader := some vsPlain, renderPass := some rpNine,
            blend := blendC2 } none).1 = .ok pso ∧
      ∀ i : Fin 8, i.val < min rpNine.colorAttachments.length 8 →
        (({ vertexShader := some vsPlain, renderPass := some rpNine, blend := blendC2 } :
            GraphicsPipelineDescriptor).blend.independentBlendEnabled = false →
          attachmentBlendParams (pso.renderPipelineState.desc.colorAttachments i) =
            targetBlendParams
              (({ vertexShader := some vsPlain, renderPass := some rpNine,
                  blend := blendC2 } :
                GraphicsPipelineDescriptor).blend.targets 0)) ∧
        (({ vertexShader := some vsPlain, renderPass := some rpNine, blend := blendC2 } :
            GraphicsPipelineDescriptor).blend.independentBlendEnabled = true →
          attachmentBlendParams (pso.renderPipelineState.desc.colorAttachments i) =
            targetBlendParams
              (({ vertexShader := some vsPlain, renderPass := some rpNine,
                  blend := blendC2 } :
                GraphicsPipelineDescriptor).blend.targets i))) :=
  ⟨rfl, rfl, rfl, rfl, rfl, rfl,
   spec_C2 TargetOS.macos _ none vsPlain rpNine rfl rfl rfl⟩

/-- The backend-neutral stencil face named by the spec: keep on every
operation, always-pass compare, zero read and write masks. -/
def neutralStencilFace : StencilFaceDescriptor :=
  { stencilFailOp := .keep
    depthFailOp := .keep
    depthPassOp := .keep
    compareOp := .alwaysPass
    readMask := 0
    writeMask := 0
    reference := 0 }

/-- C6: with stencil.testEnabled = false the translator installs the
default face {keep, keep, keep, always-pass, read mask 0, write mask 0} on
both stencil faces, and the whole translated depth-stencil state is equal
to the one produced by testEnabled = true with both faces set to exactly
those six values (each face keeping its own reference value, which is not
among the six). -/
theorem spec_C6 (device : MTDevice) (desc : GraphicsPipelineDescriptor)
    (h : desc.stencil.testEnabled = false) :
    (createDepthStencilState device desc).depthStencilState.desc.frontFaceStencil =
      fillDefaultMTStencilDesc ∧
    (createDepthStencilState device desc).depthStencilState.desc.backFaceStencil =
      fillDefaultMTStencilDesc ∧
    fillDefaultMTStencilDesc =
      { stencilFailureOperation := .keep
        depthFailureOperation := .keep
        depthStencilPassOperation := .keep
        stencilCompareFunction := .always
        readMask := 0
        writeMask := 0 } ∧
    createDepthStencilState device desc =
      createDepthStencilState device
        { desc with
            stencil :=
              { testEnabled := true
                referenceDynamic := desc.stencil.referenceDynamic
                front :=
                  { neutralStencilFace with reference := desc.stencil.front.reference }
                back :=
                  { neutralStencilFace with reference := desc.stencil.back.reference } } } := by
  refine ⟨?_, ?_, rfl, ?_⟩
  · simp [createDepthStencilState, h]
  · simp [createDepthStencilState, h]
  · simp [createDepthStencilState, h, convertStencilDesc, fillDefaultMTStencilDesc,
      neutralStencilFace, toMTLStencilOperation, toMTLCompareFunction]

/-- A descriptor with the stencil test disabled and distinct nonzero
front and back reference values. -/
def descC6 : GraphicsPipelineDescriptor :=
  { stencil :=
      { testEnabled := false
        front := { reference := 5 }
        back := { reference := 9 } } }

theorem spec_C6_witness :
    descC6.stencil.testEnabled = false ∧
    ((createDepthStencilState mtDeviceOk descC6).depthStencilState.desc.frontFaceStencil =
      fillDefaultMTStencilDesc ∧
     (createDepthStencilState mtDeviceOk descC6).depthStencilState.desc.backFaceStencil =
      fillDefaultMTStencilDesc ∧
     fillDefaultMTStencilDesc =
       { stencilFailureOperation := .keep
         depthFailureOperation := .keep
         depthStencilPassOperation := .keep
         stencilCompareFunction := .always
         readMask := 0
         writeMask := 0 } ∧
     createDepthStencilState mtDeviceOk descC6 =
       createDepthStencilState mtDeviceOk
         { descC6 with
             stencil :=
               { testEnabled := true
                 referenceDynamic := descC6.stencil.referenceDynamic
                 front :=
                   { neutralStencilFace with
                       reference := descC6.stencil.front.reference }
                 back :=
                   { neutralStencilFace with
                       reference := descC6.stencil.back.reference } } }) :=
  ⟨rfl, spec_C6 mtDeviceOk _ rfl⟩

/-- C7: the translated depth state takes its write-enable flag from
depth.writeEnabled unconditionally and its compare function from
depth.compareOp only when depth.testEnabled, and always-pass otherwise;
Bind replays exactly that state to the encoder, so disabling the test while
enabling writes still performs depth writes after binding. -/
theorem spec_C7 :
    (∀ (device : MTDevice) (desc : GraphicsPipelineDescriptor),
      (createDepthStencilState device desc).depthStencilState.desc.depthWriteEnabled =
        desc.depth.writeEnabled ∧
      (createDepthStencilState device desc).depthStencilState.desc.depthCompareFunction =
        (if desc.depth.testEnabled then toMTLCompareFunction desc.depth.compareOp
         else MTLCompareFunction.always)) ∧
    (∀ (os : TargetOS) (device : MTDevice) (desc : GraphicsPipelineDescriptor)
        (drp : Option MTRenderPass) (pso : MTGraphicsPSO) (calls : List NativeCall),
      translateGraphicsPSO os device desc drp = (.ok pso, calls) →
      pso.depthStencilState = (createDepthStencilState device desc).depthStencilState ∧
      EncoderCall.setDepthStencilState pso.depthStencilState ∈ bindGraphicsPSO os pso) := by
  constructor
  · intro device desc
    exact ⟨rfl, rfl⟩
  · intro os device desc drp pso calls htr
    rcases hcr : createRenderPipelineState os device desc drp with ⟨res, calls2⟩
    cases res with
    | error e => simp [translateGraphicsPSO, hcr] at htr
    | ok rps =>
      simp only [translateGraphicsPSO, hcr, Prod.mk.injEq, Except.ok.injEq] at htr
      obtain ⟨hpso, hcalls⟩ := htr
      subst hpso
      refine ⟨rfl, ?_⟩
      cases os <;> simp [bindGraphicsPSO]

theorem spec_C7_witness :
    ((createDepthStencilState mtDeviceOk
        { depth := { testEnabled := false, writeEnabled := true } }
      ).depthStencilState.desc.depthWriteEnabled =
        ({ depth := { testEnabled := false, writeEnabled := true } } :
          GraphicsPipelineDescriptor).depth.writeEnabled ∧
     (createDepthStencilState mtDeviceOk
        { depth := { testEnabled := false, writeEnabled := true } }
      ).depthStencilState.desc.depthCompareFunction =
        (if ({ depth := { testEnabled := false, writeEnabled := true } } :
              GraphicsPipelineDescriptor).depth.testEnabled then
          toMTLCompareFunction
            ({ depth := { testEnabled := false, writeEnabled := true } } :
              GraphicsPipelineDescriptor).depth.compareOp
         else MTLCompareFunction.always)) ∧
    ∃ pso calls,
      translateGraphicsPSO TargetOS.macos mtDeviceOk
          { vertexShader := some vsPlain, renderPass := some rpOne,
            depth := { testEnabled := false, writeEnabled := true } } none =
        (.ok pso, calls) ∧
      pso.depthStencilState =
        (createDepthStencilState mtDeviceOk
          { vertexShader := some vsPlain, renderPass := some rpOne,
            depth := { testEnabled := false, writeEnabled := true } }).depthStencilState ∧
      EncoderCall.setDepthStencilState pso.depthStencilState ∈ bindGraphicsPSO TargetOS.macos pso :=
  ⟨spec_C7.1 mtDeviceOk _,
   _, _, rfl, spec_C7.2 TargetOS.macos mtDeviceOk _ none _ _ rfl⟩

/-- C8, evaluated at the failing platform: on iOS the whole depth-bias and
stencil-reference block of Bind is compiled out, so even for a PSO whose
stencilReferenceDynamic flag is false (and whose front and back references
are equal, which the claim says must yield the single-value call), Bind
issues no stencil-reference call at all. -/
theorem spec_C8 :
    ∃ pso,
      (translateGraphicsPSO TargetOS.ios mtDeviceOk
          { vertexShader := some vsPlain, renderPass := some rpOne } none).1 = .ok pso ∧
      pso.stencilRefDynamic = false ∧
      pso.stencilFrontRef = pso.stencilBackRef ∧
      (bindGraphicsPSO TargetOS.ios pso).filter isStencilRefCall = [] :=
  ⟨_, rfl, rfl, rfl, rfl⟩
